import Mathlib

/-!
# gorequest: typed HTTP JSON round trips

A shallow embedding of `Get` (methods/get.go) and `Post` (methods/post.go).

The two functions are straight-line code over the Go standard library.  The
library is not part of the repository, so its behaviour enters the model in two
ways:

* what the outside world decides (whether a URL parses, what the transport
  answers, what a body stream yields when read and closed, what the JSON codec
  does with a given payload) is a field of `World`;
* what the library fixes itself is written out: `Header.Set` stores the single
  value under the canonical MIME form of the key, `json.Marshal(nil)` is the
  literal `null`, `json.Unmarshal` into a nil pointer is always an error.

A Go `map[string]string` is ranged over in an order the runtime picks, so the
`headers` argument is the list of its entries in the order of that iteration;
the keys of a map are pairwise different (`HeadersWF`).  A nil map ranges over
nothing and is the empty list.

Every library call a function performs is appended to a trace, so that
statements such as "the body is not read" or "the transport is called once"
are statements about the value the function returns.
-/

namespace Gorequest

/-! ## Data model -/

/-- A byte payload (`[]byte`); JSON payloads are text. -/
abbrev Bytes := String

/-- The value `time.Duration` (a signed count of nanoseconds). -/
abbrev Duration := Int

/-- The type `http.Header`: header name to the list of its values (`map[string][]string`),
observed through lookup. -/
abbrev Header := String → Option (List String)

/-- The header map of a freshly built request. -/
def Header.empty : Header := fun _ => none

/-- Go `validHeaderFieldByte` of net/textproto: the RFC 7230 token characters
`!#$%&'*+-.^_|~`, the backquote, digits and ASCII letters. -/
def validHeaderFieldByte (c : Char) : Bool :=
  let n := c.toNat
  (48 ≤ n && n ≤ 57) || (65 ≤ n && n ≤ 90) || (97 ≤ n && n ≤ 122) ||
    n == 33 || n == 35 || n == 36 || n == 37 || n == 38 || n == 39 || n == 42 ||
    n == 43 || n == 45 || n == 46 || n == 94 || n == 95 || n == 96 || n == 124 || n == 126

/-- The rewriting loop of Go `canonicalMIMEHeaderKey`: upper case for the first
letter and for each letter after a dash, lower case for the other letters.
`upper` is the loop variable of the same name. -/
def canonLoop : Bool → List Char → List Char
  | _, [] => []
  | upper, c :: cs =>
    let c1 : Char :=
      if upper && 97 ≤ c.toNat && c.toNat ≤ 122 then Char.ofNat (c.toNat - 32)
      else if !upper && 65 ≤ c.toNat && c.toNat ≤ 90 then Char.ofNat (c.toNat + 32)
      else c
    c1 :: canonLoop (c1 == '-') cs

/-- Go `textproto.CanonicalMIMEHeaderKey`: a key holding a byte that is not a
header field byte (a space, a non-ASCII byte, ...) is returned as it is; any
other key is rewritten by `canonLoop`. -/
def CanonicalMIMEHeaderKey (s : String) : String :=
  if s.data.all validHeaderFieldByte then String.mk (canonLoop true s.data) else s

/-- Go `Header.Set`: the entry under the canonical form of `key` becomes the
single value `value`; earlier values under that name are dropped. -/
def Header.Set (h : Header) (key value : String) : Header :=
  fun k => if k = CanonicalMIMEHeaderKey key then some [value] else h k

/-- A caller `map[string]string` has pairwise different keys. -/
def HeadersWF (headers : List (String × String)) : Prop :=
  (headers.map Prod.fst).Nodup

/-- The request value `*http.Request`, as far as the two functions build it. -/
structure Request where
  method : String
  url : String
  header : Header
  /-- The request entity: `none` for a nil body reader. -/
  body : Option Bytes

/-- The stream `resp.Body`: what `io.ReadAll` yields from it and what `Close` returns. -/
structure Body (ε : Type) where
  readAll : Except ε Bytes
  close : Option ε

/-- The response value `*http.Response`. -/
structure Response (ε : Type) where
  statusCode : Int
  body : Body ε

/-- What the library and the network decide.  `δ` is the type of request
payloads, `τ` the destination type, `ε` the type of library errors. -/
structure World (δ τ ε : Type) where
  /-- Go `json.Marshal` on a non-nil value. -/
  encode : δ → Except ε Bytes
  /-- The error of `http.NewRequest` on a URL that does not parse. -/
  parseURL : String → Option ε
  /-- Go `client.Do` of a client with the given timeout. -/
  roundTrip : Duration → Request → Except ε (Response ε)
  /-- Go `json.Unmarshal` into a non-nil pointer: the contents the destination
  ends with (a failed decode may have written some of it) and the error. -/
  decode : Bytes → τ → τ × Option ε
  /-- The error of `json.Unmarshal` into a nil pointer. -/
  nilTarget : Bytes → ε

/-- Go `json.Marshal`: the nil interface encodes as the literal `null`. -/
def jsonMarshal {δ τ ε : Type} (w : World δ τ ε) : Option δ → Except ε Bytes
  | none => .ok "null"
  | some d => w.encode d

/-- Go `http.NewRequest` for the methods `GET` and `POST`: fails when the URL
does not parse, else a request with an empty header map. -/
def NewRequest {δ τ ε : Type} (w : World δ τ ε) (method url : String)
    (body : Option Bytes) : Except ε Request :=
  match w.parseURL url with
  | some err => .error err
  | none => .ok { method := method, url := url, header := Header.empty, body := body }

/-- Go `json.Unmarshal(data, obj)`: `obj` is `none` for a nil pointer, else
the contents of the cell it points to. -/
def jsonUnmarshal {δ τ ε : Type} (w : World δ τ ε) (data : Bytes) :
    Option τ → Option τ × Option ε
  | none => (none, some (w.nilTarget data))
  | some v => (some (w.decode data v).1, (w.decode data v).2)

/-- The errors the two functions return.  `wrapf text cause` is
`fmt.Errorf(text + ": %w", cause)`; `statusf code` is
`fmt.Errorf("invalid response: status code %d", code)`. -/
inductive CallError (ε : Type) where
  | wrapf (text : String) (cause : ε)
  | statusf (code : Int)

/-- Go `errors.Unwrap`: the cause of an error built with `%w`, nothing otherwise. -/
def CallError.Unwrap {ε : Type} : CallError ε → Option ε
  | .wrapf _ cause => some cause
  | .statusf _ => none

/-- The pointer a call returns: the literal `nil`, or its own argument `obj`. -/
inductive Ret where
  | nil
  | obj
  deriving DecidableEq, Repr

/-- The library calls of a run. -/
inductive Event (ε : Type) where
  | marshal
  | newRequest (method url : String)
  | clientDo (req : Request)
  | readAll
  | unmarshal (data : Bytes)
  | close
  | printf (format : String) (cerr : ε)

/-- Is the event a call of the transport? -/
def Event.isDo {ε : Type} : Event ε → Bool
  | .clientDo _ => true
  | _ => false

/-- Is the event a request construction? -/
def Event.isNewRequest {ε : Type} : Event ε → Bool
  | .newRequest _ _ => true
  | _ => false

/-- Is the event a read of the response body? -/
def Event.isReadAll {ε : Type} : Event ε → Bool
  | .readAll => true
  | _ => false

/-- Is the event a JSON decode? -/
def Event.isUnmarshal {ε : Type} : Event ε → Bool
  | .unmarshal _ => true
  | _ => false

/-- Is the event a close of the response body? -/
def Event.isClose {ε : Type} : Event ε → Bool
  | .close => true
  | _ => false

/-- What a call leaves behind: the returned pair, the contents of the
destination (`none` when `obj` was nil) and the library calls made, in order. -/
structure Outcome (τ ε : Type) where
  result : Ret
  err : Option (CallError ε)
  dest : Option τ
  trace : List (Event ε)

/-! ## The two functions -/

/-- The function `Get` of methods/get.go. -/
def Get {δ τ ε : Type} (w : World δ τ ε) (url : String) (obj : Option τ)
    (headers : List (String × String)) (timeout : Duration) : Outcome τ ε :=
  match NewRequest w "GET" url none with
  | .error err =>
    { result := .nil, err := some (.wrapf "failed to create request" err), dest := obj,
      trace := [.newRequest "GET" url] }
  | .ok req0 =>
    let req : Request :=
      { req0 with header := headers.foldl (fun h kv => h.Set kv.1 kv.2) req0.header }
    match w.roundTrip timeout req with
    | .error err =>
      { result := .nil, err := some (.wrapf "request failed" err), dest := obj,
        trace := [.newRequest "GET" url, .clientDo req] }
    | .ok resp =>
      -- the deferred closure: runs once, when the function returns
      let deferred : List (Event ε) :=
        match resp.body.close with
        | some cerr => [.close, .printf "Error closing response body: %s\n" cerr]
        | none => [.close]
      if resp.statusCode < 200 ∨ resp.statusCode ≥ 300 then
        { result := .nil, err := some (.statusf resp.statusCode), dest := obj,
          trace := [.newRequest "GET" url, .clientDo req] ++ deferred }
      else
        match resp.body.readAll with
        | .error err =>
          { result := .nil, err := some (.wrapf "failed to read response body" err),
            dest := obj,
            trace := [.newRequest "GET" url, .clientDo req, .readAll] ++ deferred }
        | .ok body =>
          match jsonUnmarshal w body obj with
          | (obj1, some err) =>
            { result := .nil, err := some (.wrapf "failed to unmarshal JSON" err),
              dest := obj1,
              trace := [.newRequest "GET" url, .clientDo req, .readAll, .unmarshal body]
                ++ deferred }
          | (obj1, none) =>
            { result := .obj, err := none, dest := obj1,
              trace := [.newRequest "GET" url, .clientDo req, .readAll, .unmarshal body]
                ++ deferred }

/-- The function `Post` of methods/post.go. -/
def Post {δ τ ε : Type} (w : World δ τ ε) (url : String) (data : Option δ)
    (responseObj : Option τ) (headers : List (String × String)) (timeout : Duration) :
    Outcome τ ε :=
  match jsonMarshal w data with
  | .error err =>
    { result := .nil, err := some (.wrapf "failed to marshal request body" err),
      dest := responseObj, trace := [.marshal] }
  | .ok bodyBytes =>
    match NewRequest w "POST" url (some bodyBytes) with
    | .error err =>
      { result := .nil, err := some (.wrapf "failed to create request" err),
        dest := responseObj, trace := [.marshal, .newRequest "POST" url] }
    | .ok req0 =>
      let req1 : Request :=
        { req0 with header := req0.header.Set "Content-Type" "application/json" }
      let req : Request :=
        { req1 with header := headers.foldl (fun h kv => h.Set kv.1 kv.2) req1.header }
      match w.roundTrip timeout req with
      | .error err =>
        { result := .nil, err := some (.wrapf "request failed" err), dest := responseObj,
          trace := [.marshal, .newRequest "POST" url, .clientDo req] }
      | .ok resp =>
        -- the deferred closure: runs once, when the function returns
        let deferred : List (Event ε) :=
          match resp.body.close with
          | some cerr => [.close, .printf "Error closing response body: %s\n" cerr]
          | none => [.close]
        if resp.statusCode < 200 ∨ resp.statusCode ≥ 300 then
          { result := .nil, err := some (.statusf resp.statusCode), dest := responseObj,
            trace := [.marshal, .newRequest "POST" url, .clientDo req] ++ deferred }
        else
          match resp.body.readAll with
          | .error err =>
            { result := .nil, err := some (.wrapf "failed to read response body" err),
              dest := responseObj,
              trace := [.marshal, .newRequest "POST" url, .clientDo req, .readAll]
                ++ deferred }
          | .ok body =>
            match jsonUnmarshal w body responseObj with
            | (obj1, some err) =>
              { result := .nil, err := some (.wrapf "failed to unmarshal response" err),
                dest := obj1,
                trace := [.marshal, .newRequest "POST" url, .clientDo req, .readAll,
                  .unmarshal body] ++ deferred }
            | (obj1, none) =>
              { result := .obj, err := none, dest := obj1,
                trace := [.marshal, .newRequest "POST" url, .clientDo req, .readAll,
                  .unmarshal body] ++ deferred }

/-! ## Vocabulary of the statements -/

/-- The request `Get` hands to the transport once the URL has parsed. -/
def getRequest (url : String) (headers : List (String × String)) : Request :=
  { method := "GET", url := url,
    header := headers.foldl (fun h kv => h.Set kv.1 kv.2) Header.empty,
    body := none }

/-- The request `Post` hands to the transport once the payload is encoded as
`bodyBytes` and the URL has parsed. -/
def postRequest (url : String) (bodyBytes : Bytes) (headers : List (String × String)) :
    Request :=
  { method := "POST", url := url,
    header := headers.foldl (fun h kv => h.Set kv.1 kv.2)
      (Header.empty.Set "Content-Type" "application/json"),
    body := some bodyBytes }

/-- The request of a transport call, nothing for the other events. -/
def Event.request? {ε : Type} : Event ε → Option Request
  | .clientDo req => some req
  | _ => none

/-- The outgoing request of a run: the one of its first transport call. -/
def Outcome.sent {τ ε : Type} (o : Outcome τ ε) : Option Request :=
  o.trace.findSome? Event.request?

/-- The values of header `name` on the outgoing request of a run. -/
def Outcome.sentHeader {τ ε : Type} (o : Outcome τ ε) (name : String) :
    Option (List String) :=
  match o.sent with
  | some req => req.header name
  | none => none

instance (headers : List (String × String)) : Decidable (HeadersWF headers) := by
  unfold HeadersWF
  infer_instance

/-- The error kinds of the specification's taxonomy. -/
inductive ErrorKind where
  | construction
  | transport
  | unexpectedStatus
  | decode
  | unknown
  deriving DecidableEq, Repr

/-- The kind of an error, after the specification's taxonomy: request building
and payload serialization are construction errors, a failed send is a transport
error, a body that cannot be read or decoded is a decode error. -/
def CallError.kind {ε : Type} : CallError ε → ErrorKind
  | .statusf _ => .unexpectedStatus
  | .wrapf text _ =>
    if text = "failed to create request" ∨ text = "failed to marshal request body" then
      .construction
    else if text = "request failed" then .transport
    else if text = "failed to read response body" ∨ text = "failed to unmarshal JSON"
        ∨ text = "failed to unmarshal response" then .decode
    else .unknown

/-- The status code an error carries, for the status error only. -/
def CallError.code? {ε : Type} : CallError ε → Option Int
  | .statusf code => some code
  | .wrapf _ _ => none

/-- The world `w`, except that closing any response body returns `c`. -/
def World.setClose {δ τ ε : Type} (w : World δ τ ε) (c : Option ε) : World δ τ ε :=
  { w with
    roundTrip := fun t req =>
      match w.roundTrip t req with
      | .error e => .error e
      | .ok r => .ok { r with body := { r.body with close := c } } }

/-- The events of the deferred closure: the close of the body and, when the
close fails, the line it prints. -/
def deferredEvents {ε : Type} (resp : Response ε) : List (Event ε) :=
  match resp.body.close with
  | some cerr => [.close, .printf "Error closing response body: %s\n" cerr]
  | none => [.close]

/-! ## A concrete world -/

/-- A destination type: `struct { ID int; Name string }` with JSON names `id`, `name`. -/
structure Item where
  ID : Int
  Name : String
  deriving DecidableEq, Repr

/-- Request payloads: a number, or a channel (which JSON cannot encode). -/
inductive Payload where
  | num (n : Nat)
  | chan
  deriving DecidableEq, Repr

/-- The answer of the demo server on `/item`: 200 and an item. -/
def itemResponse : Response String :=
  { statusCode := 200,
    body := { readAll := .ok "\x7b\"id\": 7, \"name\": \"x\"\x7d", close := none } }

/-- The answer on `/missing`: 404, the same JSON body, and a body whose close fails. -/
def missingResponse : Response String :=
  { statusCode := 404,
    body := { readAll := .ok "\x7b\"id\": 7, \"name\": \"x\"\x7d",
              close := some "close: connection reset" } }

/-- The answer on `/bad`: 200 and a body that is not JSON. -/
def badResponse : Response String :=
  { statusCode := 200, body := { readAll := .ok "not-json", close := none } }

/-- The answer on `/cut`: 200 and a body whose read breaks off. -/
def cutResponse : Response String :=
  { statusCode := 200, body := { readAll := .error "unexpected EOF", close := none } }

/-- A world with one server, `api.test`, answering on the four paths above; any
other host is unreachable.  A URL starting with a colon does not parse.  The
codec encodes numbers, and decodes the one item the server sends. -/
def demoWorld : World Payload Item String where
  encode := fun d =>
    match d with
    | .num n => .ok (toString n)
    | .chan => .error "json: unsupported type: chan int"
  parseURL := fun url =>
    if url.data.head? = some ':' then some "parse: missing protocol scheme" else none
  roundTrip := fun _ req =>
    if req.url = "http://api.test/item" then .ok itemResponse
    else if req.url = "http://api.test/missing" then .ok missingResponse
    else if req.url = "http://api.test/bad" then .ok badResponse
    else if req.url = "http://api.test/cut" then .ok cutResponse
    else .error "dial tcp: connection refused"
  decode := fun data v =>
    if data = "\x7b\"id\": 7, \"name\": \"x\"\x7d" then ({ ID := 7, Name := "x" }, none)
    else (v, some "invalid character in JSON input")
  nilTarget := fun _ => "json: Unmarshal(nil *Item)"

/-! ## The paths of `Get` -/

theorem Get_parse_error {δ τ ε : Type} (w : World δ τ ε) (url : String) (obj : Option τ)
    (headers : List (String × String)) (timeout : Duration) (e : ε)
    (hp : w.parseURL url = some e) :
    Get w url obj headers timeout =
      { result := .nil, err := some (.wrapf "failed to create request" e), dest := obj,
        trace := [.newRequest "GET" url] } := by
  simp only [Get, NewRequest, hp]

theorem Get_transport_error {δ τ ε : Type} (w : World δ τ ε) (url : String)
    (obj : Option τ) (headers : List (String × String)) (timeout : Duration) (e : ε)
    (hp : w.parseURL url = none)
    (hr : w.roundTrip timeout (getRequest url headers) = .error e) :
    Get w url obj headers timeout =
      { result := .nil, err := some (.wrapf "request failed" e), dest := obj,
        trace := [.newRequest "GET" url, .clientDo (getRequest url headers)] } := by
  unfold getRequest at hr ⊢
  simp only [Get, NewRequest, hp, hr]

theorem Get_bad_status {δ τ ε : Type} (w : World δ τ ε) (url : String)
    (obj : Option τ) (headers : List (String × String)) (timeout : Duration)
    (resp : Response ε) (hp : w.parseURL url = none)
    (hr : w.roundTrip timeout (getRequest url headers) = .ok resp)
    (hs : resp.statusCode < 200 ∨ resp.statusCode ≥ 300) :
    Get w url obj headers timeout =
      { result := .nil, err := some (.statusf resp.statusCode), dest := obj,
        trace := [.newRequest "GET" url, .clientDo (getRequest url headers)]
          ++ deferredEvents resp } := by
  unfold getRequest at hr ⊢
  simp only [Get, NewRequest, hp, hr, deferredEvents, if_pos hs]

theorem Get_read_error {δ τ ε : Type} (w : World δ τ ε) (url : String)
    (obj : Option τ) (headers : List (String × String)) (timeout : Duration)
    (resp : Response ε) (e : ε) (hp : w.parseURL url = none)
    (hr : w.roundTrip timeout (getRequest url headers) = .ok resp)
    (hs : ¬ (resp.statusCode < 200 ∨ resp.statusCode ≥ 300))
    (hb : resp.body.readAll = .error e) :
    Get w url obj headers timeout =
      { result := .nil, err := some (.wrapf "failed to read response body" e), dest := obj,
        trace := [.newRequest "GET" url, .clientDo (getRequest url headers), .readAll]
          ++ deferredEvents resp } := by
  unfold getRequest at hr ⊢
  simp only [Get, NewRequest, hp, hr, deferredEvents, if_neg hs, hb]

theorem Get_decode_error {δ τ ε : Type} (w : World δ τ ε) (url : String)
    (obj : Option τ) (headers : List (String × String)) (timeout : Duration)
    (resp : Response ε) (body : Bytes) (d : ε) (hp : w.parseURL url = none)
    (hr : w.roundTrip timeout (getRequest url headers) = .ok resp)
    (hs : ¬ (resp.statusCode < 200 ∨ resp.statusCode ≥ 300))
    (hb : resp.body.readAll = .ok body)
    (hd : (jsonUnmarshal w body obj).2 = some d) :
    Get w url obj headers timeout =
      { result := .nil, err := some (.wrapf "failed to unmarshal JSON" d),
        dest := (jsonUnmarshal w body obj).1,
        trace := [.newRequest "GET" url, .clientDo (getRequest url headers), .readAll,
          .unmarshal body] ++ deferredEvents resp } := by
  unfold getRequest at hr ⊢
  simp only [Get, NewRequest, hp, hr, deferredEvents, if_neg hs, hb]
  split
  · rename_i h
    rw [h] at hd
    simp only [Option.some.injEq] at hd
    simp only [h, hd]
  · rename_i h
    rw [h] at hd
    simp at hd

theorem Get_success {δ τ ε : Type} (w : World δ τ ε) (url : String)
    (obj : Option τ) (headers : List (String × String)) (timeout : Duration)
    (resp : Response ε) (body : Bytes) (hp : w.parseURL url = none)
    (hr : w.roundTrip timeout (getRequest url headers) = .ok resp)
    (hs : ¬ (resp.statusCode < 200 ∨ resp.statusCode ≥ 300))
    (hb : resp.body.readAll = .ok body)
    (hd : (jsonUnmarshal w body obj).2 = none) :
    Get w url obj headers timeout =
      { result := .obj, err := none, dest := (jsonUnmarshal w body obj).1,
        trace := [.newRequest "GET" url, .clientDo (getRequest url headers), .readAll,
          .unmarshal body] ++ deferredEvents resp } := by
  unfold getRequest at hr ⊢
  simp only [Get, NewRequest, hp, hr, deferredEvents, if_neg hs, hb]
  split
  · rename_i h
    rw [h] at hd
    simp at hd
  · rename_i h
    simp only [h]

/-! ## The paths of `Post` -/

theorem Post_marshal_error {δ τ ε : Type} (w : World δ τ ε) (url : String)
    (data : Option δ) (obj : Option τ) (headers : List (String × String))
    (timeout : Duration) (e : ε) (hm : jsonMarshal w data = .error e) :
    Post w url data obj headers timeout =
      { result := .nil, err := some (.wrapf "failed to marshal request body" e),
        dest := obj, trace := [.marshal] } := by
  simp only [Post, hm]

theorem Post_parse_error {δ τ ε : Type} (w : World δ τ ε) (url : String)
    (data : Option δ) (obj : Option τ) (headers : List (String × String))
    (timeout : Duration) (b : Bytes) (e : ε) (hm : jsonMarshal w data = .ok b)
    (hp : w.parseURL url = some e) :
    Post w url data obj headers timeout =
      { result := .nil, err := some (.wrapf "failed to create request" e), dest := obj,
        trace := [.marshal, .newRequest "POST" url] } := by
  simp only [Post, hm, NewRequest, hp]

theorem Post_transport_error {δ τ ε : Type} (w : World δ τ ε) (url : String)
    (data : Option δ) (obj : Option τ) (headers : List (String × String))
    (timeout : Duration) (b : Bytes) (e : ε) (hm : jsonMarshal w data = .ok b)
    (hp : w.parseURL url = none)
    (hr : w.roundTrip timeout (postRequest url b headers) = .error e) :
    Post w url data obj headers timeout =
      { result := .nil, err := some (.wrapf "request failed" e), dest := obj,
        trace := [.marshal, .newRequest "POST" url,
          .clientDo (postRequest url b headers)] } := by
  unfold postRequest at hr ⊢
  simp only [Post, hm, NewRequest, hp, hr]

theorem Post_bad_status {δ τ ε : Type} (w : World δ τ ε) (url : String)
    (data : Option δ) (obj : Option τ) (headers : List (String × String))
    (timeout : Duration) (b : Bytes) (resp : Response ε)
    (hm : jsonMarshal w data = .ok b) (hp : w.parseURL url = none)
    (hr : w.roundTrip timeout (postRequest url b headers) = .ok resp)
    (hs : resp.statusCode < 200 ∨ resp.statusCode ≥ 300) :
    Post w url data obj headers timeout =
      { result := .nil, err := some (.statusf resp.statusCode), dest := obj,
        trace := [.marshal, .newRequest "POST" url, .clientDo (postRequest url b headers)]
          ++ deferredEvents resp } := by
  unfold postRequest at hr ⊢
  simp only [Post, hm, NewRequest, hp, hr, deferredEvents, if_pos hs]

theorem Post_read_error {δ τ ε : Type} (w : World δ τ ε) (url : String)
    (data : Option δ) (obj : Option τ) (headers : List (String × String))
    (timeout : Duration) (b : Bytes) (resp : Response ε) (e : ε)
    (hm : jsonMarshal w data = .ok b) (hp : w.parseURL url = none)
    (hr : w.roundTrip timeout (postRequest url b headers) = .ok resp)
    (hs : ¬ (resp.statusCode < 200 ∨ resp.statusCode ≥ 300))
    (hb : resp.body.readAll = .error e) :
    Post w url data obj headers timeout =
      { result := .nil, err := some (.wrapf "failed to read response body" e), dest := obj,
        trace := [.marshal, .newRequest "POST" url, .clientDo (postRequest url b headers),
          .readAll] ++ deferredEvents resp } := by
  unfold postRequest at hr ⊢
  simp only [Post, hm, NewRequest, hp, hr, deferredEvents, if_neg hs, hb]

theorem Post_decode_error {δ τ ε : Type} (w : World δ τ ε) (url : String)
    (data : Option δ) (obj : Option τ) (headers : List (String × String))
    (timeout : Duration) (b : Bytes) (resp : Response ε) (body : Bytes) (d : ε)
    (hm : jsonMarshal w data = .ok b) (hp : w.parseURL url = none)
    (hr : w.roundTrip timeout (postRequest url b headers) = .ok resp)
    (hs : ¬ (resp.statusCode < 200 ∨ resp.statusCode ≥ 300))
    (hb : resp.body.readAll = .ok body)
    (hd : (jsonUnmarshal w body obj).2 = some d) :
    Post w url data obj headers timeout =
      { result := .nil, err := some (.wrapf "failed to unmarshal response" d),
        dest := (jsonUnmarshal w body obj).1,
        trace := [.marshal, .newRequest "POST" url, .clientDo (postRequest url b headers),
          .readAll, .unmarshal body] ++ deferredEvents resp } := by
  unfold postRequest at hr ⊢
  simp only [Post, hm, NewRequest, hp, hr, deferredEvents, if_neg hs, hb]
  split
  · rename_i h
    rw [h] at hd
    simp only [Option.some.injEq] at hd
    simp only [h, hd]
  · rename_i h
    rw [h] at hd
    simp at hd

theorem Post_success {δ τ ε : Type} (w : World δ τ ε) (url : String)
    (data : Option δ) (obj : Option τ) (headers : List (String × String))
    (timeout : Duration) (b : Bytes) (resp : Response ε) (body : Bytes)
    (hm : jsonMarshal w data = .ok b) (hp : w.parseURL url = none)
    (hr : w.roundTrip timeout (postRequest url b headers) = .ok resp)
    (hs : ¬ (resp.statusCode < 200 ∨ resp.statusCode ≥ 300))
    (hb : resp.body.readAll = .ok body)
    (hd : (jsonUnmarshal w body obj).2 = none) :
    Post w url data obj headers timeout =
      { result := .obj, err := none, dest := (jsonUnmarshal w body obj).1,
        trace := [.marshal, .newRequest "POST" url, .clientDo (postRequest url b headers),
          .readAll, .unmarshal body] ++ deferredEvents resp } := by
  unfold postRequest at hr ⊢
  simp only [Post, hm, NewRequest, hp, hr, deferredEvents, if_neg hs, hb]
  split
  · rename_i h
    rw [h] at hd
    simp at hd
  · rename_i h
    simp only [h]

/-! ## Applying the caller's headers -/

theorem foldl_Set_of_not_mem (hs : List (String × String)) (h0 : Header) (x : String)
    (hx : ∀ p ∈ hs, CanonicalMIMEHeaderKey p.1 ≠ x) :
    hs.foldl (fun h kv => h.Set kv.1 kv.2) h0 x = h0 x := by
  induction hs generalizing h0 with
  | nil => rfl
  | cons p ps ih =>
    rw [List.foldl_cons, ih _ (fun q hq => hx q (List.mem_cons_of_mem _ hq))]
    have hne : x ≠ CanonicalMIMEHeaderKey p.1 := fun h => hx p (List.mem_cons_self _ _) h.symm
    simp only [Header.Set, if_neg hne]

theorem foldl_Set_of_mem (hs : List (String × String)) (h0 : Header) (k v : String)
    (hm : (k, v) ∈ hs)
    (hu : ∀ p ∈ hs, CanonicalMIMEHeaderKey p.1 = CanonicalMIMEHeaderKey k → p.2 = v) :
    hs.foldl (fun h kv => h.Set kv.1 kv.2) h0 (CanonicalMIMEHeaderKey k) = some [v] := by
  induction hs generalizing h0 k with
  | nil => cases hm
  | cons p ps ih =>
    rw [List.foldl_cons]
    by_cases hex : ∃ q ∈ ps, CanonicalMIMEHeaderKey q.1 = CanonicalMIMEHeaderKey k
    · obtain ⟨q, hq, hqk⟩ := hex
      have hqv : q.2 = v := hu q (List.mem_cons_of_mem _ hq) hqk
      have hq' : (q.1, v) ∈ ps := by rw [← hqv]; exact hq
      rw [← hqk]
      exact ih _ q.1 hq' (fun r hr hrq => hu r (List.mem_cons_of_mem _ hr) (hrq.trans hqk))
    · have hnone : ∀ q ∈ ps, CanonicalMIMEHeaderKey q.1 ≠ CanonicalMIMEHeaderKey k :=
        fun q hq hqk => hex ⟨q, hq, hqk⟩
      rw [foldl_Set_of_not_mem ps _ _ hnone]
      have hp : p = (k, v) := by
        rcases List.mem_cons.mp hm with h | h
        · exact h.symm
        · exact absurd rfl (hnone (k, v) h)
      subst hp
      simp only [Header.Set, if_true]

theorem foldl_Set_perm (hs₁ hs₂ : List (String × String)) (h0 : Header)
    (hc : (hs₁.map (fun p => CanonicalMIMEHeaderKey p.1)).Nodup) (hperm : hs₁.Perm hs₂) :
    hs₁.foldl (fun h kv => h.Set kv.1 kv.2) h0 = hs₂.foldl (fun h kv => h.Set kv.1 kv.2) h0 := by
  have huniq : ∀ p ∈ hs₁, ∀ q ∈ hs₁,
      CanonicalMIMEHeaderKey q.1 = CanonicalMIMEHeaderKey p.1 → q = p := by
    intro p hp q hq hqp
    exact List.inj_on_of_nodup_map hc hq hp hqp
  funext x
  by_cases hex : ∃ p ∈ hs₁, CanonicalMIMEHeaderKey p.1 = x
  · obtain ⟨p, hp, hpx⟩ := hex
    subst hpx
    have h1 := foldl_Set_of_mem hs₁ h0 p.1 p.2 hp
      (fun q hq hqp => by rw [huniq p hp q hq hqp])
    have h2 := foldl_Set_of_mem hs₂ h0 p.1 p.2 (hperm.mem_iff.mp hp)
      (fun q hq hqp => by rw [huniq p hp q (hperm.mem_iff.mpr hq) hqp])
    rw [h1, h2]
  · have hn1 : ∀ p ∈ hs₁, CanonicalMIMEHeaderKey p.1 ≠ x := fun p hp hpx => hex ⟨p, hp, hpx⟩
    have hn2 : ∀ p ∈ hs₂, CanonicalMIMEHeaderKey p.1 ≠ x :=
      fun p hp hpx => hex ⟨p, hperm.mem_iff.mpr hp, hpx⟩
    rw [foldl_Set_of_not_mem hs₁ h0 x hn1, foldl_Set_of_not_mem hs₂ h0 x hn2]

/-! ## The deferred close -/

theorem countP_isClose_deferredEvents {ε : Type} (resp : Response ε) :
    (deferredEvents resp).countP Event.isClose = 1 := by
  unfold deferredEvents
  split <;> simp [Event.isClose]

theorem countP_isReadAll_deferredEvents {ε : Type} (resp : Response ε) :
    (deferredEvents resp).countP Event.isReadAll = 0 := by
  unfold deferredEvents
  split <;> simp [Event.isReadAll]

theorem countP_isUnmarshal_deferredEvents {ε : Type} (resp : Response ε) :
    (deferredEvents resp).countP Event.isUnmarshal = 0 := by
  unfold deferredEvents
  split <;> simp [Event.isUnmarshal]

theorem countP_isDo_deferredEvents {ε : Type} (resp : Response ε) :
    (deferredEvents resp).countP Event.isDo = 0 := by
  unfold deferredEvents
  split <;> simp [Event.isDo]

theorem jsonUnmarshal_setClose {δ τ ε : Type} (w : World δ τ ε) (c : Option ε)
    (data : Bytes) (obj : Option τ) :
    jsonUnmarshal (w.setClose c) data obj = jsonUnmarshal w data obj := by
  cases obj <;> rfl

theorem jsonMarshal_setClose {δ τ ε : Type} (w : World δ τ ε) (c : Option ε)
    (data : Option δ) : jsonMarshal (w.setClose c) data = jsonMarshal w data := by
  cases data <;> rfl

theorem roundTrip_setClose_ok {δ τ ε : Type} (w : World δ τ ε) (c : Option ε)
    (t : Duration) (req : Request) (resp : Response ε) (hr : w.roundTrip t req = .ok resp) :
    (w.setClose c).roundTrip t req
      = .ok { statusCode := resp.statusCode,
              body := { readAll := resp.body.readAll, close := c } } := by
  simp only [World.setClose, hr]

theorem roundTrip_setClose_error {δ τ ε : Type} (w : World δ τ ε) (c : Option ε)
    (t : Duration) (req : Request) (e : ε) (hr : w.roundTrip t req = .error e) :
    (w.setClose c).roundTrip t req = .error e := by
  simp only [World.setClose, hr]

/-! ## The outgoing request -/

theorem Get_sent {δ τ ε : Type} (w : World δ τ ε) (url : String) (obj : Option τ)
    (headers : List (String × String)) (timeout : Duration) (hp : w.parseURL url = none) :
    (Get w url obj headers timeout).sent = some (getRequest url headers) := by
  cases hr : w.roundTrip timeout (getRequest url headers) with
  | error e =>
    rw [Get_transport_error w url obj headers timeout e hp hr]
    simp [Outcome.sent, Event.request?]
  | ok resp =>
    by_cases hs : resp.statusCode < 200 ∨ resp.statusCode ≥ 300
    · rw [Get_bad_status w url obj headers timeout resp hp hr hs]
      simp [Outcome.sent, Event.request?]
    · cases hb : resp.body.readAll with
      | error e =>
        rw [Get_read_error w url obj headers timeout resp e hp hr hs hb]
        simp [Outcome.sent, Event.request?]
      | ok body =>
        cases hd : (jsonUnmarshal w body obj).2 with
        | some d =>
          rw [Get_decode_error w url obj headers timeout resp body d hp hr hs hb hd]
          simp [Outcome.sent, Event.request?]
        | none =>
          rw [Get_success w url obj headers timeout resp body hp hr hs hb hd]
          simp [Outcome.sent, Event.request?]

theorem Post_sent {δ τ ε : Type} (w : World δ τ ε) (url : String) (data : Option δ)
    (obj : Option τ) (headers : List (String × String)) (timeout : Duration) (b : Bytes)
    (hm : jsonMarshal w data = .ok b) (hp : w.parseURL url = none) :
    (Post w url data obj headers timeout).sent = some (postRequest url b headers) := by
  cases hr : w.roundTrip timeout (postRequest url b headers) with
  | error e =>
    rw [Post_transport_error w url data obj headers timeout b e hm hp hr]
    simp [Outcome.sent, Event.request?]
  | ok resp =>
    by_cases hs : resp.statusCode < 200 ∨ resp.statusCode ≥ 300
    · rw [Post_bad_status w url data obj headers timeout b resp hm hp hr hs]
      simp [Outcome.sent, Event.request?]
    · cases hb : resp.body.readAll with
      | error e =>
        rw [Post_read_error w url data obj headers timeout b resp e hm hp hr hs hb]
        simp [Outcome.sent, Event.request?]
      | ok body =>
        cases hd : (jsonUnmarshal w body obj).2 with
        | some d =>
          rw [Post_decode_error w url data obj headers timeout b resp body d hm hp hr hs hb hd]
          simp [Outcome.sent, Event.request?]
        | none =>
          rw [Post_success w url data obj headers timeout b resp body hm hp hr hs hb hd]
          simp [Outcome.sent, Event.request?]

/-! ## Status check -/

/-- C1: for `Get` and for `Post`, once the transport has delivered a response
with status code `c`, the call fails with the status error exactly when
`c < 200` or `c ≥ 300`, and a status error it returns is the one carrying `c`. -/
theorem status_error_iff_out_of_range {δ τ ε : Type} (w : World δ τ ε) :
    (∀ (url : String) (obj : Option τ) (headers : List (String × String))
        (timeout : Duration) (resp : Response ε),
        w.parseURL url = none →
        w.roundTrip timeout (getRequest url headers) = .ok resp →
        ((Get w url obj headers timeout).err = some (.statusf resp.statusCode) ↔
            (resp.statusCode < 200 ∨ resp.statusCode ≥ 300)) ∧
          ∀ e, (Get w url obj headers timeout).err = some e →
            e.kind = .unexpectedStatus → e = .statusf resp.statusCode) ∧
    (∀ (url : String) (data : Option δ) (obj : Option τ)
        (headers : List (String × String)) (timeout : Duration) (b : Bytes)
        (resp : Response ε),
        jsonMarshal w data = .ok b →
        w.parseURL url = none →
        w.roundTrip timeout (postRequest url b headers) = .ok resp →
        ((Post w url data obj headers timeout).err = some (.statusf resp.statusCode) ↔
            (resp.statusCode < 200 ∨ resp.statusCode ≥ 300)) ∧
          ∀ e, (Post w url data obj headers timeout).err = some e →
            e.kind = .unexpectedStatus → e = .statusf resp.statusCode) := by
  refine ⟨?_, ?_⟩
  · intro url obj headers timeout resp hp hr
    by_cases hs : resp.statusCode < 200 ∨ resp.statusCode ≥ 300
    · rw [Get_bad_status w url obj headers timeout resp hp hr hs]
      refine ⟨by simp [hs], ?_⟩
      intro e he _
      simpa using he.symm
    · cases hb : resp.body.readAll with
      | error e0 =>
        rw [Get_read_error w url obj headers timeout resp e0 hp hr hs hb]
        refine ⟨by simp [hs], ?_⟩
        intro e he hk
        simp only [Option.some.injEq] at he
        subst he
        simp [CallError.kind] at hk
      | ok body =>
        cases hd : (jsonUnmarshal w body obj).2 with
        | some d =>
          rw [Get_decode_error w url obj headers timeout resp body d hp hr hs hb hd]
          refine ⟨by simp [hs], ?_⟩
          intro e he hk
          simp only [Option.some.injEq] at he
          subst he
          simp [CallError.kind] at hk
        | none =>
          rw [Get_success w url obj headers timeout resp body hp hr hs hb hd]
          refine ⟨by simp [hs], ?_⟩
          intro e he
          simp at he
  · intro url data obj headers timeout b resp hm hp hr
    by_cases hs : resp.statusCode < 200 ∨ resp.statusCode ≥ 300
    · rw [Post_bad_status w url data obj headers timeout b resp hm hp hr hs]
      refine ⟨by simp [hs], ?_⟩
      intro e he _
      simpa using he.symm
    · cases hb : resp.body.readAll with
      | error e0 =>
        rw [Post_read_error w url data obj headers timeout b resp e0 hm hp hr hs hb]
        refine ⟨by simp [hs], ?_⟩
        intro e he hk
        simp only [Option.some.injEq] at he
        subst he
        simp [CallError.kind] at hk
      | ok body =>
        cases hd : (jsonUnmarshal w body obj).2 with
        | some d =>
          rw [Post_decode_error w url data obj headers timeout b resp body d hm hp hr hs hb hd]
          refine ⟨by simp [hs], ?_⟩
          intro e he hk
          simp only [Option.some.injEq] at he
          subst he
          simp [CallError.kind] at hk
        | none =>
          rw [Post_success w url data obj headers timeout b resp body hm hp hr hs hb hd]
          refine ⟨by simp [hs], ?_⟩
          intro e he
          simp at he

/-- C1 at the demo server: a 404 answer makes `Get` and `Post` fail with the
status error carrying 404. -/
theorem status_error_iff_out_of_range_witness :
    (demoWorld.parseURL "http://api.test/missing" = none ∧
      demoWorld.roundTrip 5 (getRequest "http://api.test/missing" []) = .ok missingResponse ∧
      (Get demoWorld "http://api.test/missing" (some ⟨0, ""⟩) [] 5).err
        = some (.statusf 404)) ∧
    (jsonMarshal demoWorld (some (.num 3)) = .ok "3" ∧
      demoWorld.roundTrip 5 (postRequest "http://api.test/missing" "3" [])
        = .ok missingResponse ∧
      (Post demoWorld "http://api.test/missing" (some (.num 3)) (some ⟨0, ""⟩) [] 5).err
        = some (.statusf 404)) :=
  ⟨⟨by decide, rfl,
    ((status_error_iff_out_of_range demoWorld).1 "http://api.test/missing" (some ⟨0, ""⟩) []
      5 missingResponse (by decide) rfl).1.mpr (by decide)⟩,
   ⟨rfl, rfl,
    ((status_error_iff_out_of_range demoWorld).2 "http://api.test/missing" (some (.num 3))
      (some ⟨0, ""⟩) [] 5 "3" missingResponse rfl (by decide) rfl).1.mpr (by decide)⟩⟩

/-- C2: for `Get` and for `Post`, a response whose status is outside
`[200, 300)` gives a nil result and a non-nil error whatever its body is; the
body is neither read nor decoded, and the destination keeps its contents. -/
theorem bad_status_skips_body {δ τ ε : Type} (w : World δ τ ε) :
    (∀ (url : String) (obj : Option τ) (headers : List (String × String))
        (timeout : Duration) (resp : Response ε),
        w.parseURL url = none →
        w.roundTrip timeout (getRequest url headers) = .ok resp →
        (resp.statusCode < 200 ∨ resp.statusCode ≥ 300) →
        (Get w url obj headers timeout).result = .nil ∧
          (Get w url obj headers timeout).err ≠ none ∧
          (Get w url obj headers timeout).dest = obj ∧
          (Get w url obj headers timeout).trace.countP Event.isReadAll = 0 ∧
          (Get w url obj headers timeout).trace.countP Event.isUnmarshal = 0) ∧
    (∀ (url : String) (data : Option δ) (obj : Option τ)
        (headers : List (String × String)) (timeout : Duration) (b : Bytes)
        (resp : Response ε),
        jsonMarshal w data = .ok b →
        w.parseURL url = none →
        w.roundTrip timeout (postRequest url b headers) = .ok resp →
        (resp.statusCode < 200 ∨ resp.statusCode ≥ 300) →
        (Post w url data obj headers timeout).result = .nil ∧
          (Post w url data obj headers timeout).err ≠ none ∧
          (Post w url data obj headers timeout).dest = obj ∧
          (Post w url data obj headers timeout).trace.countP Event.isReadAll = 0 ∧
          (Post w url data obj headers timeout).trace.countP Event.isUnmarshal = 0) := by
  refine ⟨?_, ?_⟩
  · intro url obj headers timeout resp hp hr hs
    rw [Get_bad_status w url obj headers timeout resp hp hr hs]
    refine ⟨rfl, by simp, rfl, ?_, ?_⟩
    · simp [List.countP_append, List.countP_cons, countP_isReadAll_deferredEvents,
        Event.isReadAll]
    · simp [List.countP_append, List.countP_cons, countP_isUnmarshal_deferredEvents,
        Event.isUnmarshal]
  · intro url data obj headers timeout b resp hm hp hr hs
    rw [Post_bad_status w url data obj headers timeout b resp hm hp hr hs]
    refine ⟨rfl, by simp, rfl, ?_, ?_⟩
    · simp [List.countP_append, List.countP_cons, countP_isReadAll_deferredEvents,
        Event.isReadAll]
    · simp [List.countP_append, List.countP_cons, countP_isUnmarshal_deferredEvents,
        Event.isUnmarshal]

/-- C2 at the demo server: the 404 answer carries a body that would decode,
and the destination still holds what it held. -/
theorem bad_status_skips_body_witness :
    (demoWorld.roundTrip 5 (getRequest "http://api.test/missing" []) = .ok missingResponse ∧
      (demoWorld.decode "\x7b\"id\": 7, \"name\": \"x\"\x7d" ⟨1, "old"⟩).2 = none ∧
      (Get demoWorld "http://api.test/missing" (some ⟨1, "old"⟩) [] 5).dest
        = some ⟨1, "old"⟩ ∧
      (Get demoWorld "http://api.test/missing" (some ⟨1, "old"⟩) [] 5).trace.countP
        Event.isUnmarshal = 0) ∧
    (demoWorld.roundTrip 5 (postRequest "http://api.test/missing" "null" [])
        = .ok missingResponse ∧
      (Post demoWorld "http://api.test/missing" none (some ⟨1, "old"⟩) [] 5).result = .nil ∧
      (Post demoWorld "http://api.test/missing" none (some ⟨1, "old"⟩) [] 5).dest
        = some ⟨1, "old"⟩) :=
  ⟨⟨rfl, by decide,
    ((bad_status_skips_body demoWorld).1 "http://api.test/missing" (some ⟨1, "old"⟩) [] 5
      missingResponse (by decide) rfl (by decide)).2.2.1,
    ((bad_status_skips_body demoWorld).1 "http://api.test/missing" (some ⟨1, "old"⟩) [] 5
      missingResponse (by decide) rfl (by decide)).2.2.2.2⟩,
   ⟨rfl,
    ((bad_status_skips_body demoWorld).2 "http://api.test/missing" none (some ⟨1, "old"⟩) []
      5 "null" missingResponse rfl (by decide) rfl (by decide)).1,
    ((bad_status_skips_body demoWorld).2 "http://api.test/missing" none (some ⟨1, "old"⟩) []
      5 "null" missingResponse rfl (by decide) rfl (by decide)).2.2.1⟩⟩

/-! ## The two outcomes -/

/-- C3: for `Get` and for `Post`, every call ends in exactly one of
(the pointer passed in, no error) and (nil, an error).  The first one occurs
exactly when the request was built (for `Post`: the payload encoded too), the
transport answered, the status is in `[200, 300)`, the body was read and the
decode succeeded; the destination then holds what the decoder wrote. -/
theorem outcome_success_iff {δ τ ε : Type} (w : World δ τ ε) :
    (∀ (url : String) (obj : Option τ) (headers : List (String × String))
        (timeout : Duration),
        (((Get w url obj headers timeout).result = .obj ∧
              (Get w url obj headers timeout).err = none) ∨
            ((Get w url obj headers timeout).result = .nil ∧
              (Get w url obj headers timeout).err ≠ none)) ∧
          (((Get w url obj headers timeout).result = .obj ∧
              (Get w url obj headers timeout).err = none) ↔
            ∃ resp body, w.parseURL url = none ∧
              w.roundTrip timeout (getRequest url headers) = .ok resp ∧
              200 ≤ resp.statusCode ∧ resp.statusCode < 300 ∧
              resp.body.readAll = .ok body ∧ (jsonUnmarshal w body obj).2 = none) ∧
          (∀ resp body, w.parseURL url = none →
              w.roundTrip timeout (getRequest url headers) = .ok resp →
              200 ≤ resp.statusCode → resp.statusCode < 300 →
              resp.body.readAll = .ok body → (jsonUnmarshal w body obj).2 = none →
              (Get w url obj headers timeout).dest = (jsonUnmarshal w body obj).1)) ∧
    (∀ (url : String) (data : Option δ) (obj : Option τ)
        (headers : List (String × String)) (timeout : Duration),
        (((Post w url data obj headers timeout).result = .obj ∧
              (Post w url data obj headers timeout).err = none) ∨
            ((Post w url data obj headers timeout).result = .nil ∧
              (Post w url data obj headers timeout).err ≠ none)) ∧
          (((Post w url data obj headers timeout).result = .obj ∧
              (Post w url data obj headers timeout).err = none) ↔
            ∃ b resp body, jsonMarshal w data = .ok b ∧ w.parseURL url = none ∧
              w.roundTrip timeout (postRequest url b headers) = .ok resp ∧
              200 ≤ resp.statusCode ∧ resp.statusCode < 300 ∧
              resp.body.readAll = .ok body ∧ (jsonUnmarshal w body obj).2 = none) ∧
          (∀ b resp body, jsonMarshal w data = .ok b → w.parseURL url = none →
              w.roundTrip timeout (postRequest url b headers) = .ok resp →
              200 ≤ resp.statusCode → resp.statusCode < 300 →
              resp.body.readAll = .ok body → (jsonUnmarshal w body obj).2 = none →
              (Post w url data obj headers timeout).dest = (jsonUnmarshal w body obj).1)) := by
  refine ⟨?_, ?_⟩
  · intro url obj headers timeout
    cases hp : w.parseURL url with
    | some e =>
      rw [Get_parse_error w url obj headers timeout e hp]
      simp
    | none =>
      cases hr : w.roundTrip timeout (getRequest url headers) with
      | error e =>
        rw [Get_transport_error w url obj headers timeout e hp hr]
        simp
      | ok resp =>
        by_cases hs : resp.statusCode < 200 ∨ resp.statusCode ≥ 300
        · rw [Get_bad_status w url obj headers timeout resp hp hr hs]
          refine ⟨by simp, ?_, ?_⟩
          · simp only [Except.ok.injEq, reduceCtorEq, false_and, false_iff, not_exists]
            rintro r body ⟨_, rfl, h1, h2, _⟩
            omega
          · rintro r body _ hr' h1 h2 _ _
            cases hr'
            omega
        · cases hb : resp.body.readAll with
          | error e =>
            rw [Get_read_error w url obj headers timeout resp e hp hr hs hb]
            refine ⟨by simp, ?_, ?_⟩
            · simp only [Except.ok.injEq, reduceCtorEq, false_and, false_iff, not_exists]
              rintro r body ⟨_, rfl, _, _, hb', _⟩
              rw [hb] at hb'
              cases hb'
            · rintro r body _ hr' _ _ hb' _
              cases hr'
              rw [hb] at hb'
              cases hb'
          | ok body =>
            cases hd : (jsonUnmarshal w body obj).2 with
            | some d =>
              rw [Get_decode_error w url obj headers timeout resp body d hp hr hs hb hd]
              refine ⟨by simp, ?_, ?_⟩
              · simp only [Except.ok.injEq, reduceCtorEq, false_and, false_iff, not_exists]
                rintro r body' ⟨_, rfl, _, _, hb', hd'⟩
                rw [hb] at hb'
                cases hb'
                rw [hd] at hd'
                cases hd'
              · rintro r body' _ hr' _ _ hb' _
                cases hr'
                rw [hb] at hb'
                cases hb'
                rfl
            | none =>
              rw [Get_success w url obj headers timeout resp body hp hr hs hb hd]
              refine ⟨by simp, ?_, ?_⟩
              · simp only [and_self, true_iff]
                exact ⟨resp, body, trivial, rfl, by omega, by omega, hb, hd⟩
              · rintro r body' _ hr' _ _ hb' _
                cases hr'
                rw [hb] at hb'
                cases hb'
                rfl
  · intro url data obj headers timeout
    cases hm : jsonMarshal w data with
    | error e =>
      rw [Post_marshal_error w url data obj headers timeout e hm]
      simp
    | ok b =>
    cases hp : w.parseURL url with
    | some e =>
      rw [Post_parse_error w url data obj headers timeout b e hm hp]
      simp
    | none =>
      cases hr : w.roundTrip timeout (postRequest url b headers) with
      | error e =>
        rw [Post_transport_error w url data obj headers timeout b e hm hp hr]
        refine ⟨by simp, ?_, ?_⟩
        · simp only [reduceCtorEq, false_and, false_iff, not_exists]
          rintro b' r body ⟨hb', _, hr', _⟩
          cases hb'
          rw [hr] at hr'
          cases hr'
        · rintro b' r body hb' _ hr' _ _ _ _
          cases hb'
          rw [hr] at hr'
          cases hr'
      | ok resp =>
        by_cases hs : resp.statusCode < 200 ∨ resp.statusCode ≥ 300
        · rw [Post_bad_status w url data obj headers timeout b resp hm hp hr hs]
          refine ⟨by simp, ?_, ?_⟩
          · simp only [reduceCtorEq, false_and, false_iff, not_exists]
            rintro b' r body ⟨hb', _, hr', h1, h2, _⟩
            cases hb'
            rw [hr] at hr'
            cases hr'
            omega
          · rintro b' r body hb' _ hr' h1 h2 _ _
            cases hb'
            rw [hr] at hr'
            cases hr'
            omega
        · cases hb : resp.body.readAll with
          | error e =>
            rw [Post_read_error w url data obj headers timeout b resp e hm hp hr hs hb]
            refine ⟨by simp, ?_, ?_⟩
            · simp only [reduceCtorEq, false_and, false_iff, not_exists]
              rintro b' r body ⟨hb', _, hr', _, _, hb'', _⟩
              cases hb'
              rw [hr] at hr'
              cases hr'
              rw [hb] at hb''
              cases hb''
            · rintro b' r body hb' _ hr' _ _ hb'' _
              cases hb'
              rw [hr] at hr'
              cases hr'
              rw [hb] at hb''
              cases hb''
          | ok body =>
            cases hd : (jsonUnmarshal w body obj).2 with
            | some d =>
              rw [Post_decode_error w url data obj headers timeout b resp body d hm hp hr hs
                hb hd]
              refine ⟨by simp, ?_, ?_⟩
              · simp only [reduceCtorEq, false_and, false_iff, not_exists]
                rintro b' r body' ⟨hb', _, hr', _, _, hb'', hd'⟩
                cases hb'
                rw [hr] at hr'
                cases hr'
                rw [hb] at hb''
                cases hb''
                rw [hd] at hd'
                cases hd'
              · rintro b' r body' hb' _ hr' _ _ hb'' _
                cases hb'
                rw [hr] at hr'
                cases hr'
                rw [hb] at hb''
                cases hb''
                rfl
            | none =>
              rw [Post_success w url data obj headers timeout b resp body hm hp hr hs hb hd]
              refine ⟨by simp, ?_, ?_⟩
              · simp only [and_self, true_iff]
                exact ⟨b, resp, body, rfl, trivial, hr, by omega, by omega, hb, hd⟩
              · rintro b' r body' hb' _ hr' _ _ hb'' _
                cases hb'
                rw [hr] at hr'
                cases hr'
                rw [hb] at hb''
                cases hb''
                rfl

/-- C3 at the demo server: status 200 with the body `{"id": 7, "name": "x"}`
gives back the pointer, no error, and the destination `{ID: 7, Name: "x"}`. -/
theorem outcome_success_iff_witness :
    (demoWorld.roundTrip 5 (getRequest "http://api.test/item" []) = .ok itemResponse ∧
      itemResponse.statusCode = 200 ∧
      itemResponse.body.readAll = .ok "\x7b\"id\": 7, \"name\": \"x\"\x7d" ∧
      ((Get demoWorld "http://api.test/item" (some ⟨0, ""⟩) [] 5).result = .obj ∧
        (Get demoWorld "http://api.test/item" (some ⟨0, ""⟩) [] 5).err = none) ∧
      (Get demoWorld "http://api.test/item" (some ⟨0, ""⟩) [] 5).dest
        = some { ID := 7, Name := "x" }) ∧
    (demoWorld.roundTrip 5 (postRequest "http://api.test/item" "3" []) = .ok itemResponse ∧
      ((Post demoWorld "http://api.test/item" (some (.num 3)) (some ⟨0, ""⟩) [] 5).result
          = .obj ∧
        (Post demoWorld "http://api.test/item" (some (.num 3)) (some ⟨0, ""⟩) [] 5).err
          = none) ∧
      (Post demoWorld "http://api.test/item" (some (.num 3)) (some ⟨0, ""⟩) [] 5).dest
        = some { ID := 7, Name := "x" }) :=
  ⟨⟨rfl, rfl, rfl,
    ((outcome_success_iff demoWorld).1 "http://api.test/item" (some ⟨0, ""⟩) [] 5).2.1.mpr
      ⟨itemResponse, "\x7b\"id\": 7, \"name\": \"x\"\x7d", by decide, rfl, by decide,
        by decide, rfl, by decide⟩,
    ((outcome_success_iff demoWorld).1 "http://api.test/item" (some ⟨0, ""⟩) [] 5).2.2
      itemResponse "\x7b\"id\": 7, \"name\": \"x\"\x7d" (by decide) rfl (by decide)
      (by decide) rfl (by decide)⟩,
   ⟨rfl,
    ((outcome_success_iff demoWorld).2 "http://api.test/item" (some (.num 3)) (some ⟨0, ""⟩)
      [] 5).2.1.mpr
      ⟨"3", itemResponse, "\x7b\"id\": 7, \"name\": \"x\"\x7d", rfl, by decide, rfl,
        by decide, by decide, rfl, by decide⟩,
    ((outcome_success_iff demoWorld).2 "http://api.test/item" (some (.num 3)) (some ⟨0, ""⟩)
      [] 5).2.2
      "3" itemResponse "\x7b\"id\": 7, \"name\": \"x\"\x7d" rfl (by decide) rfl (by decide)
      (by decide) rfl (by decide)⟩⟩

/-! ## Decode failure -/

/-- C4: for `Get` and for `Post`, when the status is in `[200, 300)` and the
body that was read does not decode into the destination, the call returns nil
and a decode error that wraps the decoder's own error. -/
theorem decode_failure_wraps_diagnostic {δ τ ε : Type} (w : World δ τ ε) :
    (∀ (url : String) (obj : Option τ) (headers : List (String × String))
        (timeout : Duration) (resp : Response ε) (body : Bytes) (d : ε),
        w.parseURL url = none →
        w.roundTrip timeout (getRequest url headers) = .ok resp →
        200 ≤ resp.statusCode → resp.statusCode < 300 →
        resp.body.readAll = .ok body →
        (jsonUnmarshal w body obj).2 = some d →
        (Get w url obj headers timeout).result = .nil ∧
          (Get w url obj headers timeout).err = some (.wrapf "failed to unmarshal JSON" d) ∧
          (Get w url obj headers timeout).err.map CallError.kind = some .decode ∧
          (Get w url obj headers timeout).err.bind CallError.Unwrap = some d) ∧
    (∀ (url : String) (data : Option δ) (obj : Option τ)
        (headers : List (String × String)) (timeout : Duration) (b : Bytes)
        (resp : Response ε) (body : Bytes) (d : ε),
        jsonMarshal w data = .ok b →
        w.parseURL url = none →
        w.roundTrip timeout (postRequest url b headers) = .ok resp →
        200 ≤ resp.statusCode → resp.statusCode < 300 →
        resp.body.readAll = .ok body →
        (jsonUnmarshal w body obj).2 = some d →
        (Post w url data obj headers timeout).result = .nil ∧
          (Post w url data obj headers timeout).err
            = some (.wrapf "failed to unmarshal response" d) ∧
          (Post w url data obj headers timeout).err.map CallError.kind = some .decode ∧
          (Post w url data obj headers timeout).err.bind CallError.Unwrap = some d) := by
  refine ⟨?_, ?_⟩
  · intro url obj headers timeout resp body d hp hr h1 h2 hb hd
    have hs : ¬ (resp.statusCode < 200 ∨ resp.statusCode ≥ 300) := by omega
    rw [Get_decode_error w url obj headers timeout resp body d hp hr hs hb hd]
    exact ⟨rfl, rfl, by simp [CallError.kind], rfl⟩
  · intro url data obj headers timeout b resp body d hm hp hr h1 h2 hb hd
    have hs : ¬ (resp.statusCode < 200 ∨ resp.statusCode ≥ 300) := by omega
    rw [Post_decode_error w url data obj headers timeout b resp body d hm hp hr hs hb hd]
    exact ⟨rfl, rfl, by simp [CallError.kind], rfl⟩

/-- C4 at the demo server: the 200 answer with body `not-json` fails in both
functions with the decoder's error wrapped; so does any body when the
destination pointer is nil. -/
theorem decode_failure_wraps_diagnostic_witness :
    (demoWorld.roundTrip 5 (getRequest "http://api.test/bad" []) = .ok badResponse ∧
      badResponse.body.readAll = .ok "not-json" ∧
      (jsonUnmarshal demoWorld "not-json" (some ⟨0, ""⟩)).2
        = some "invalid character in JSON input" ∧
      (Get demoWorld "http://api.test/bad" (some ⟨0, ""⟩) [] 5).err.bind CallError.Unwrap
        = some "invalid character in JSON input") ∧
    (demoWorld.roundTrip 5 (postRequest "http://api.test/bad" "null" []) = .ok badResponse ∧
      (Post demoWorld "http://api.test/bad" none (some ⟨0, ""⟩) [] 5).result = .nil ∧
      (Post demoWorld "http://api.test/bad" none (some ⟨0, ""⟩) [] 5).err.bind
        CallError.Unwrap = some "invalid character in JSON input") ∧
    (Get demoWorld "http://api.test/item" none [] 5).err.bind CallError.Unwrap
      = some "json: Unmarshal(nil *Item)" :=
  ⟨⟨rfl, rfl, by decide,
    ((decode_failure_wraps_diagnostic demoWorld).1 "http://api.test/bad" (some ⟨0, ""⟩) [] 5
      badResponse "not-json" "invalid character in JSON input" (by decide) rfl (by decide)
      (by decide) rfl (by decide)).2.2.2⟩,
   ⟨rfl,
    ((decode_failure_wraps_diagnostic demoWorld).2 "http://api.test/bad" none (some ⟨0, ""⟩)
      [] 5 "null" badResponse "not-json" "invalid character in JSON input" rfl (by decide)
      rfl (by decide) (by decide) rfl (by decide)).1,
    ((decode_failure_wraps_diagnostic demoWorld).2 "http://api.test/bad" none (some ⟨0, ""⟩)
      [] 5 "null" badResponse "not-json" "invalid character in JSON input" rfl (by decide)
      rfl (by decide) (by decide) rfl (by decide)).2.2.2⟩,
   ((decode_failure_wraps_diagnostic demoWorld).1 "http://api.test/item" none [] 5
      itemResponse "\x7b\"id\": 7, \"name\": \"x\"\x7d" "json: Unmarshal(nil *Item)"
      (by decide) rfl (by decide) (by decide) rfl (by decide)).2.2.2⟩

/-! ## Transport failure -/

/-- C7: for `Get` and for `Post`, when the transport fails with cause `e`, the
call returns nil and an error wrapping `e`; the transport was called once, no
decode ran, and the destination keeps its contents. -/
theorem transport_failure_wraps_cause {δ τ ε : Type} (w : World δ τ ε) :
    (∀ (url : String) (obj : Option τ) (headers : List (String × String))
        (timeout : Duration) (e : ε),
        w.parseURL url = none →
        w.roundTrip timeout (getRequest url headers) = .error e →
        (Get w url obj headers timeout).result = .nil ∧
          (Get w url obj headers timeout).err = some (.wrapf "request failed" e) ∧
          (Get w url obj headers timeout).err.map CallError.kind = some .transport ∧
          (Get w url obj headers timeout).err.bind CallError.Unwrap = some e ∧
          (Get w url obj headers timeout).trace.countP Event.isDo = 1 ∧
          (Get w url obj headers timeout).trace.countP Event.isUnmarshal = 0 ∧
          (Get w url obj headers timeout).dest = obj) ∧
    (∀ (url : String) (data : Option δ) (obj : Option τ)
        (headers : List (String × String)) (timeout : Duration) (b : Bytes) (e : ε),
        jsonMarshal w data = .ok b →
        w.parseURL url = none →
        w.roundTrip timeout (postRequest url b headers) = .error e →
        (Post w url data obj headers timeout).result = .nil ∧
          (Post w url data obj headers timeout).err = some (.wrapf "request failed" e) ∧
          (Post w url data obj headers timeout).err.map CallError.kind = some .transport ∧
          (Post w url data obj headers timeout).err.bind CallError.Unwrap = some e ∧
          (Post w url data obj headers timeout).trace.countP Event.isDo = 1 ∧
          (Post w url data obj headers timeout).trace.countP Event.isUnmarshal = 0 ∧
          (Post w url data obj headers timeout).dest = obj) := by
  refine ⟨?_, ?_⟩
  · intro url obj headers timeout e hp hr
    rw [Get_transport_error w url obj headers timeout e hp hr]
    exact ⟨rfl, rfl, by simp [CallError.kind], rfl, by simp [Event.isDo],
      by simp [Event.isUnmarshal], rfl⟩
  · intro url data obj headers timeout b e hm hp hr
    rw [Post_transport_error w url data obj headers timeout b e hm hp hr]
    exact ⟨rfl, rfl, by simp [CallError.kind], rfl, by simp [Event.isDo],
      by simp [Event.isUnmarshal], rfl⟩

/-- C7 in the demo world: a host that cannot be reached. -/
theorem transport_failure_wraps_cause_witness :
    (demoWorld.roundTrip 5 (getRequest "http://down.test/" [])
        = .error "dial tcp: connection refused" ∧
      (Get demoWorld "http://down.test/" (some ⟨1, "old"⟩) [] 5).err.bind CallError.Unwrap
        = some "dial tcp: connection refused" ∧
      (Get demoWorld "http://down.test/" (some ⟨1, "old"⟩) [] 5).dest = some ⟨1, "old"⟩) ∧
    (demoWorld.roundTrip 5 (postRequest "http://down.test/" "3" [])
        = .error "dial tcp: connection refused" ∧
      (Post demoWorld "http://down.test/" (some (.num 3)) (some ⟨1, "old"⟩) [] 5).err.bind
        CallError.Unwrap = some "dial tcp: connection refused" ∧
      (Post demoWorld "http://down.test/" (some (.num 3)) (some ⟨1, "old"⟩) []
        5).trace.countP Event.isDo = 1) :=
  ⟨⟨rfl,
    ((transport_failure_wraps_cause demoWorld).1 "http://down.test/" (some ⟨1, "old"⟩) [] 5
      "dial tcp: connection refused" (by decide) rfl).2.2.2.1,
    ((transport_failure_wraps_cause demoWorld).1 "http://down.test/" (some ⟨1, "old"⟩) [] 5
      "dial tcp: connection refused" (by decide) rfl).2.2.2.2.2.2⟩,
   ⟨rfl,
    ((transport_failure_wraps_cause demoWorld).2 "http://down.test/" (some (.num 3))
      (some ⟨1, "old"⟩) [] 5 "3" "dial tcp: connection refused" rfl (by decide) rfl).2.2.2.1,
    ((transport_failure_wraps_cause demoWorld).2 "http://down.test/" (some (.num 3))
      (some ⟨1, "old"⟩) [] 5 "3" "dial tcp: connection refused" rfl (by decide)
      rfl).2.2.2.2.1⟩⟩

/-! ## Closing the body -/

/-- C8: for `Get` and for `Post`, the returned pair and the destination do not
depend on what closing the response body returns: in the world where every
close returns `c` (success or any failure) they are what they are in `w`.
Once a response was received, the body is closed exactly once, on every path. -/
theorem close_result_is_ignored {δ τ ε : Type} (w : World δ τ ε) (c : Option ε) :
    (∀ (url : String) (obj : Option τ) (headers : List (String × String))
        (timeout : Duration),
        (Get (w.setClose c) url obj headers timeout).result
            = (Get w url obj headers timeout).result ∧
          (Get (w.setClose c) url obj headers timeout).err
            = (Get w url obj headers timeout).err ∧
          (Get (w.setClose c) url obj headers timeout).dest
            = (Get w url obj headers timeout).dest) ∧
    (∀ (url : String) (obj : Option τ) (headers : List (String × String))
        (timeout : Duration) (resp : Response ε),
        w.parseURL url = none →
        w.roundTrip timeout (getRequest url headers) = .ok resp →
        (Get w url obj headers timeout).trace.countP Event.isClose = 1) ∧
    (∀ (url : String) (data : Option δ) (obj : Option τ)
        (headers : List (String × String)) (timeout : Duration),
        (Post (w.setClose c) url data obj headers timeout).result
            = (Post w url data obj headers timeout).result ∧
          (Post (w.setClose c) url data obj headers timeout).err
            = (Post w url data obj headers timeout).err ∧
          (Post (w.setClose c) url data obj headers timeout).dest
            = (Post w url data obj headers timeout).dest) ∧
    (∀ (url : String) (data : Option δ) (obj : Option τ)
        (headers : List (String × String)) (timeout : Duration) (b : Bytes)
        (resp : Response ε),
        jsonMarshal w data = .ok b →
        w.parseURL url = none →
        w.roundTrip timeout (postRequest url b headers) = .ok resp →
        (Post w url data obj headers timeout).trace.countP Event.isClose = 1) := by
  refine ⟨?_, ?_, ?_, ?_⟩
  · intro url obj headers timeout
    cases hp : w.parseURL url with
    | some e =>
      have hp' : (w.setClose c).parseURL url = some e := hp
      rw [Get_parse_error w url obj headers timeout e hp,
        Get_parse_error (w.setClose c) url obj headers timeout e hp']
      simp
    | none =>
      have hp' : (w.setClose c).parseURL url = none := hp
      cases hr : w.roundTrip timeout (getRequest url headers) with
      | error e =>
        rw [Get_transport_error w url obj headers timeout e hp hr,
          Get_transport_error (w.setClose c) url obj headers timeout e hp'
            (roundTrip_setClose_error w c _ _ e hr)]
        simp
      | ok resp =>
        have hr' := roundTrip_setClose_ok w c _ _ resp hr
        by_cases hs : resp.statusCode < 200 ∨ resp.statusCode ≥ 300
        · rw [Get_bad_status w url obj headers timeout resp hp hr hs,
            Get_bad_status (w.setClose c) url obj headers timeout _ hp' hr' hs]
          simp
        · cases hb : resp.body.readAll with
          | error e =>
            rw [Get_read_error w url obj headers timeout resp e hp hr hs hb,
              Get_read_error (w.setClose c) url obj headers timeout _ e hp' hr' hs hb]
            simp
          | ok body =>
            cases hd : (jsonUnmarshal w body obj).2 with
            | some d =>
              have hd' : (jsonUnmarshal (w.setClose c) body obj).2 = some d := by
                rw [jsonUnmarshal_setClose, hd]
              rw [Get_decode_error w url obj headers timeout resp body d hp hr hs hb hd,
                Get_decode_error (w.setClose c) url obj headers timeout _ body d hp' hr' hs
                  hb hd']
              simp [jsonUnmarshal_setClose]
            | none =>
              have hd' : (jsonUnmarshal (w.setClose c) body obj).2 = none := by
                rw [jsonUnmarshal_setClose, hd]
              rw [Get_success w url obj headers timeout resp body hp hr hs hb hd,
                Get_success (w.setClose c) url obj headers timeout _ body hp' hr' hs hb hd']
              simp [jsonUnmarshal_setClose]
  · intro url obj headers timeout resp hp hr
    by_cases hs : resp.statusCode < 200 ∨ resp.statusCode ≥ 300
    · rw [Get_bad_status w url obj headers timeout resp hp hr hs]
      simp [List.countP_append, List.countP_cons, countP_isClose_deferredEvents,
        Event.isClose]
    · cases hb : resp.body.readAll with
      | error e =>
        rw [Get_read_error w url obj headers timeout resp e hp hr hs hb]
        simp [List.countP_append, List.countP_cons, countP_isClose_deferredEvents,
          Event.isClose]
      | ok body =>
        cases hd : (jsonUnmarshal w body obj).2 with
        | some d =>
          rw [Get_decode_error w url obj headers timeout resp body d hp hr hs hb hd]
          simp [List.countP_append, List.countP_cons, countP_isClose_deferredEvents,
            Event.isClose]
        | none =>
          rw [Get_success w url obj headers timeout resp body hp hr hs hb hd]
          simp [List.countP_append, List.countP_cons, countP_isClose_deferredEvents,
            Event.isClose]
  · intro url data obj headers timeout
    cases hm : jsonMarshal w data with
    | error e =>
      have hm' : jsonMarshal (w.setClose c) data = .error e := by
        rw [jsonMarshal_setClose, hm]
      rw [Post_marshal_error w url data obj headers timeout e hm,
        Post_marshal_error (w.setClose c) url data obj headers timeout e hm']
      simp
    | ok b =>
    have hm' : jsonMarshal (w.setClose c) data = .ok b := by
      rw [jsonMarshal_setClose, hm]
    cases hp : w.parseURL url with
    | some e =>
      have hp' : (w.setClose c).parseURL url = some e := hp
      rw [Post_parse_error w url data obj headers timeout b e hm hp,
        Post_parse_error (w.setClose c) url data obj headers timeout b e hm' hp']
      simp
    | none =>
      have hp' : (w.setClose c).parseURL url = none := hp
      cases hr : w.roundTrip timeout (postRequest url b headers) with
      | error e =>
        rw [Post_transport_error w url data obj headers timeout b e hm hp hr,
          Post_transport_error (w.setClose c) url data obj headers timeout b e hm' hp'
            (roundTrip_setClose_error w c _ _ e hr)]
        simp
      | ok resp =>
        have hr' := roundTrip_setClose_ok w c _ _ resp hr
        by_cases hs : resp.statusCode < 200 ∨ resp.statusCode ≥ 300
        · rw [Post_bad_status w url data obj headers timeout b resp hm hp hr hs,
            Post_bad_status (w.setClose c) url data obj headers timeout b _ hm' hp' hr' hs]
          simp
        · cases hb : resp.body.readAll with
          | error e =>
            rw [Post_read_error w url data obj headers timeout b resp e hm hp hr hs hb,
              Post_read_error (w.setClose c) url data obj headers timeout b _ e hm' hp' hr'
                hs hb]
            simp
          | ok body =>
            cases hd : (jsonUnmarshal w body obj).2 with
            | some d =>
              have hd' : (jsonUnmarshal (w.setClose c) body obj).2 = some d := by
                rw [jsonUnmarshal_setClose, hd]
              rw [Post_decode_error w url data obj headers timeout b resp body d hm hp hr hs
                  hb hd,
                Post_decode_error (w.setClose c) url data obj headers timeout b _ body d hm'
                  hp' hr' hs hb hd']
              simp [jsonUnmarshal_setClose]
            | none =>
              have hd' : (jsonUnmarshal (w.setClose c) body obj).2 = none := by
                rw [jsonUnmarshal_setClose, hd]
              rw [Post_success w url data obj headers timeout b resp body hm hp hr hs hb hd,
                Post_success (w.setClose c) url data obj headers timeout b _ body hm' hp'
                  hr' hs hb hd']
              simp [jsonUnmarshal_setClose]
  · intro url data obj headers timeout b resp hm hp hr
    by_cases hs : resp.statusCode < 200 ∨ resp.statusCode ≥ 300
    · rw [Post_bad_status w url data obj headers timeout b resp hm hp hr hs]
      simp [List.countP_append, List.countP_cons, countP_isClose_deferredEvents,
        Event.isClose]
    · cases hb : resp.body.readAll with
      | error e =>
        rw [Post_read_error w url data obj headers timeout b resp e hm hp hr hs hb]
        simp [List.countP_append, List.countP_cons, countP_isClose_deferredEvents,
          Event.isClose]
      | ok body =>
        cases hd : (jsonUnmarshal w body obj).2 with
        | some d =>
          rw [Post_decode_error w url data obj headers timeout b resp body d hm hp hr hs hb
            hd]
          simp [List.countP_append, List.countP_cons, countP_isClose_deferredEvents,
            Event.isClose]
        | none =>
          rw [Post_success w url data obj headers timeout b resp body hm hp hr hs hb hd]
          simp [List.countP_append, List.countP_cons, countP_isClose_deferredEvents,
            Event.isClose]

/-- C8 at the demo server: the 404 answer, whose close fails, and the 200
answer with a close forced to fail give what they give with a clean close. -/
theorem close_result_is_ignored_witness :
    (missingResponse.body.close = some "close: connection reset" ∧
      (Get (demoWorld.setClose none) "http://api.test/missing" (some ⟨1, "old"⟩) [] 5).err
        = (Get demoWorld "http://api.test/missing" (some ⟨1, "old"⟩) [] 5).err ∧
      (Get demoWorld "http://api.test/missing" (some ⟨1, "old"⟩) [] 5).trace.countP
        Event.isClose = 1) ∧
    (demoWorld.roundTrip 5 (postRequest "http://api.test/item" "3" []) = .ok itemResponse ∧
      (Post (demoWorld.setClose (some "close: broken pipe")) "http://api.test/item"
          (some (.num 3)) (some ⟨1, "old"⟩) [] 5).result
        = (Post demoWorld "http://api.test/item" (some (.num 3)) (some ⟨1, "old"⟩) []
          5).result ∧
      (Post demoWorld "http://api.test/item" (some (.num 3)) (some ⟨1, "old"⟩) []
        5).trace.countP Event.isClose = 1) :=
  ⟨⟨rfl,
    ((close_result_is_ignored demoWorld none).1 "http://api.test/missing" (some ⟨1, "old"⟩)
      [] 5).2.1,
    (close_result_is_ignored demoWorld none).2.1 "http://api.test/missing"
      (some ⟨1, "old"⟩) [] 5 missingResponse (by decide) rfl⟩,
   ⟨rfl,
    ((close_result_is_ignored demoWorld (some "close: broken pipe")).2.2.1
      "http://api.test/item" (some (.num 3)) (some ⟨1, "old"⟩) [] 5).1,
    (close_result_is_ignored demoWorld (some "close: broken pipe")).2.2.2
      "http://api.test/item" (some (.num 3)) (some ⟨1, "old"⟩) [] 5 "3" itemResponse rfl
      (by decide) rfl⟩⟩

/-! ## `Get` and `Post` after the response -/

/-- C9: once `Get` and `Post` have received the same response (status, body
read result, close result) for the same destination, they return the same
pointer, leave the same destination contents, and return errors of the same
kind with the same status code and the same wrapped cause; the library calls
they make after the send are the same too. -/
theorem get_post_same_handling {δ τ ε : Type} (w : World δ τ ε) (urlG urlP : String)
    (data : Option δ) (obj : Option τ) (headersG headersP : List (String × String))
    (timeoutG timeoutP : Duration) (b : Bytes) (resp : Response ε)
    (hpG : w.parseURL urlG = none)
    (hrG : w.roundTrip timeoutG (getRequest urlG headersG) = .ok resp)
    (hm : jsonMarshal w data = .ok b)
    (hpP : w.parseURL urlP = none)
    (hrP : w.roundTrip timeoutP (postRequest urlP b headersP) = .ok resp) :
    (Get w urlG obj headersG timeoutG).result
        = (Post w urlP data obj headersP timeoutP).result ∧
      (Get w urlG obj headersG timeoutG).dest
        = (Post w urlP data obj headersP timeoutP).dest ∧
      (Get w urlG obj headersG timeoutG).err.map CallError.kind
        = (Post w urlP data obj headersP timeoutP).err.map CallError.kind ∧
      (Get w urlG obj headersG timeoutG).err.bind CallError.code?
        = (Post w urlP data obj headersP timeoutP).err.bind CallError.code? ∧
      (Get w urlG obj headersG timeoutG).err.bind CallError.Unwrap
        = (Post w urlP data obj headersP timeoutP).err.bind CallError.Unwrap ∧
      (Get w urlG obj headersG timeoutG).trace.drop 2
        = (Post w urlP data obj headersP timeoutP).trace.drop 3 := by
  by_cases hs : resp.statusCode < 200 ∨ resp.statusCode ≥ 300
  · rw [Get_bad_status w urlG obj headersG timeoutG resp hpG hrG hs,
      Post_bad_status w urlP data obj headersP timeoutP b resp hm hpP hrP hs]
    simp
  · cases hb : resp.body.readAll with
    | error e =>
      rw [Get_read_error w urlG obj headersG timeoutG resp e hpG hrG hs hb,
        Post_read_error w urlP data obj headersP timeoutP b resp e hm hpP hrP hs hb]
      simp
    | ok body =>
      cases hd : (jsonUnmarshal w body obj).2 with
      | some d =>
        rw [Get_decode_error w urlG obj headersG timeoutG resp body d hpG hrG hs hb hd,
          Post_decode_error w urlP data obj headersP timeoutP b resp body d hm hpP hrP hs hb
            hd]
        simp [CallError.kind, CallError.code?, CallError.Unwrap]
      | none =>
        rw [Get_success w urlG obj headersG timeoutG resp body hpG hrG hs hb hd,
          Post_success w urlP data obj headersP timeoutP b resp body hm hpP hrP hs hb hd]
        simp

/-- C9 at the demo server: the 200 answer with body `not-json`, received by
`Get` and by `Post`. -/
theorem get_post_same_handling_witness :
    demoWorld.roundTrip 5 (getRequest "http://api.test/bad" []) = .ok badResponse ∧
    demoWorld.roundTrip 9 (postRequest "http://api.test/bad" "3" [("X-Trace", "1")])
      = .ok badResponse ∧
    (Get demoWorld "http://api.test/bad" (some ⟨1, "old"⟩) [] 5).err.map CallError.kind
      = (Post demoWorld "http://api.test/bad" (some (.num 3)) (some ⟨1, "old"⟩)
          [("X-Trace", "1")] 9).err.map CallError.kind ∧
    (Get demoWorld "http://api.test/bad" (some ⟨1, "old"⟩) [] 5).dest
      = (Post demoWorld "http://api.test/bad" (some (.num 3)) (some ⟨1, "old"⟩)
          [("X-Trace", "1")] 9).dest :=
  ⟨rfl, rfl,
    (get_post_same_handling demoWorld "http://api.test/bad" "http://api.test/bad"
      (some (.num 3)) (some ⟨1, "old"⟩) [] [("X-Trace", "1")] 5 9 "3" badResponse
      (by decide) rfl rfl (by decide) rfl).2.2.1,
    (get_post_same_handling demoWorld "http://api.test/bad" "http://api.test/bad"
      (some (.num 3)) (some ⟨1, "old"⟩) [] [("X-Trace", "1")] 5 9 "3" badResponse
      (by decide) rfl rfl (by decide) rfl).2.1⟩

/-! ## The request `Post` builds -/

/-- C6: for `Post`, when the payload encodes to `b`, the entity of the outgoing
request is `b`; the nil payload encodes to the four bytes `null`.  When the
payload does not encode, `Post` returns nil and an error wrapping the encoder's
error, and neither builds nor sends a request. -/
theorem post_entity_is_json_encoding {δ τ ε : Type} (w : World δ τ ε) :
    (∀ (url : String) (data : Option δ) (obj : Option τ)
        (headers : List (String × String)) (timeout : Duration) (b : Bytes),
        jsonMarshal w data = .ok b → w.parseURL url = none →
        ∃ req, (Post w url data obj headers timeout).sent = some req ∧
          req.method = "POST" ∧ req.body = some b) ∧
    (∀ (url : String) (obj : Option τ) (headers : List (String × String))
        (timeout : Duration),
        w.parseURL url = none →
        ∃ req, (Post w url none obj headers timeout).sent = some req ∧
          req.body = some "null" ∧ ("null" : Bytes).utf8ByteSize = 4) ∧
    (∀ (url : String) (data : Option δ) (obj : Option τ)
        (headers : List (String × String)) (timeout : Duration) (e : ε),
        jsonMarshal w data = .error e →
        (Post w url data obj headers timeout).result = .nil ∧
          (Post w url data obj headers timeout).err
            = some (.wrapf "failed to marshal request body" e) ∧
          (Post w url data obj headers timeout).trace.countP Event.isNewRequest = 0 ∧
          (Post w url data obj headers timeout).trace.countP Event.isDo = 0 ∧
          (Post w url data obj headers timeout).sent = none) := by
  refine ⟨?_, ?_, ?_⟩
  · intro url data obj headers timeout b hm hp
    exact ⟨_, Post_sent w url data obj headers timeout b hm hp, rfl, rfl⟩
  · intro url obj headers timeout hp
    exact ⟨_, Post_sent w url none obj headers timeout "null" rfl hp, rfl, by decide⟩
  · intro url data obj headers timeout e hm
    rw [Post_marshal_error w url data obj headers timeout e hm]
    exact ⟨rfl, rfl, by simp [Event.isNewRequest], by simp [Event.isDo],
      by simp [Outcome.sent, Event.request?]⟩

/-- C6 in the demo world: the number 3 goes out as `3`, nil as `null`, and a
channel stops `Post` before any request exists. -/
theorem post_entity_is_json_encoding_witness :
    (jsonMarshal demoWorld (some (.num 3)) = .ok "3" ∧
      ∃ req, (Post demoWorld "http://api.test/item" (some (.num 3)) (some ⟨0, ""⟩) []
          5).sent = some req ∧ req.method = "POST" ∧ req.body = some "3") ∧
    (∃ req, (Post demoWorld "http://api.test/item" none (some ⟨0, ""⟩) [] 5).sent
        = some req ∧ req.body = some "null" ∧ ("null" : Bytes).utf8ByteSize = 4) ∧
    (jsonMarshal demoWorld (some .chan) = .error "json: unsupported type: chan int" ∧
      (Post demoWorld "http://api.test/item" (some .chan) (some ⟨0, ""⟩) [] 5).sent
        = none) :=
  ⟨⟨rfl, (post_entity_is_json_encoding demoWorld).1 "http://api.test/item" (some (.num 3))
      (some ⟨0, ""⟩) [] 5 "3" rfl (by decide)⟩,
   (post_entity_is_json_encoding demoWorld).2.1 "http://api.test/item" (some ⟨0, ""⟩) [] 5
      (by decide),
   ⟨rfl, ((post_entity_is_json_encoding demoWorld).2.2 "http://api.test/item" (some .chan)
      (some ⟨0, ""⟩) [] 5 "json: unsupported type: chan int" rfl).2.2.2.2⟩⟩

/-! ## Caller headers -/

/-- C5, as stated, fails.  A mapping may hold both `Content-Type` and
`content-type`; when the runtime ranges over `content-type` last, its value
goes out under `Content-Type`.  And a mapping holding only `content-type` has
no entry `Content-Type`, yet the default `application/json` is replaced. -/
theorem post_content_type_counterexample :
    (HeadersWF [("Content-Type", "text/plain"), ("content-type", "text/html")] ∧
      ("Content-Type", "text/plain")
        ∈ [("Content-Type", "text/plain"), ("content-type", "text/html")] ∧
      (Post demoWorld "http://api.test/item" (some (.num 3)) (some ⟨0, ""⟩)
          [("Content-Type", "text/plain"), ("content-type", "text/html")] 5).sentHeader
        "Content-Type" = some ["text/html"] ∧
      (Post demoWorld "http://api.test/item" (some (.num 3)) (some ⟨0, ""⟩)
          [("Content-Type", "text/plain"), ("content-type", "text/html")] 5).sentHeader
        "Content-Type" ≠ some ["text/plain"]) ∧
    (HeadersWF [("content-type", "text/plain")] ∧
      (∀ p ∈ [("content-type", "text/plain")], p.1 ≠ "Content-Type") ∧
      (Post demoWorld "http://api.test/item" (some (.num 3)) (some ⟨0, ""⟩)
          [("content-type", "text/plain")] 5).sentHeader "Content-Type"
        = some ["text/plain"] ∧
      (Post demoWorld "http://api.test/item" (some (.num 3)) (some ⟨0, ""⟩)
          [("content-type", "text/plain")] 5).sentHeader "Content-Type"
        ≠ some ["application/json"]) := by
  refine ⟨⟨by decide, by decide, by decide, by decide⟩, ⟨by decide, by decide, by decide,
    by decide⟩⟩

/-- C5, amended: for `Post`, when the mapping has an entry with value `v`
whose key has the canonical form `Content-Type` (the key `Content-Type` is
one) and no other key of the mapping has that canonical form, the outgoing
`Content-Type` is the single value `v`; when no key of the mapping (a nil
mapping has none) has the canonical form `Content-Type`, the outgoing
`Content-Type` is `application/json`.  In general the entry applied last among
those with that canonical form decides. -/
theorem post_content_type_override {δ τ ε : Type} (w : World δ τ ε) (url : String)
    (data : Option δ) (obj : Option τ) (headers : List (String × String))
    (timeout : Duration) (b : Bytes) (hm : jsonMarshal w data = .ok b)
    (hp : w.parseURL url = none) (hwf : HeadersWF headers) :
    (∀ k v, (k, v) ∈ headers → CanonicalMIMEHeaderKey k = "Content-Type" →
        (∀ p ∈ headers, CanonicalMIMEHeaderKey p.1 = "Content-Type" → p.1 = k) →
        (Post w url data obj headers timeout).sentHeader "Content-Type" = some [v]) ∧
    ((∀ p ∈ headers, CanonicalMIMEHeaderKey p.1 ≠ "Content-Type") →
        (Post w url data obj headers timeout).sentHeader "Content-Type"
          = some ["application/json"]) ∧
    (∀ before k v after, headers = before ++ (k, v) :: after →
        CanonicalMIMEHeaderKey k = "Content-Type" →
        (∀ p ∈ after, CanonicalMIMEHeaderKey p.1 ≠ "Content-Type") →
        (Post w url data obj headers timeout).sentHeader "Content-Type" = some [v]) := by
  have hcanon : CanonicalMIMEHeaderKey "Content-Type" = "Content-Type" := by decide
  have hsent := Post_sent w url data obj headers timeout b hm hp
  refine ⟨?_, ?_, ?_⟩
  · intro k v hv hk hother
    simp only [Outcome.sentHeader, hsent, postRequest]
    have h := foldl_Set_of_mem headers (Header.empty.Set "Content-Type" "application/json")
      k v hv (by
        intro p hpm hpc
        rw [hk] at hpc
        have hkey : p.1 = (k, v).1 := hother p hpm hpc
        have := List.inj_on_of_nodup_map hwf hpm hv hkey
        rw [this])
    rw [hk] at h
    exact h
  · intro hnone
    simp only [Outcome.sentHeader, hsent, postRequest]
    rw [foldl_Set_of_not_mem headers _ "Content-Type" hnone]
    simp [Header.Set, hcanon]
  · intro before k v after hsplit hk hafter
    simp only [Outcome.sentHeader, hsent, postRequest]
    rw [hsplit, List.foldl_append, List.foldl_cons,
      foldl_Set_of_not_mem after _ "Content-Type" hafter]
    simp [Header.Set, hk]

/-- C5, amended, at the demo server: `Content-Type: text/plain` next to an
unrelated header goes out as `text/plain`, and so does a lone `content-type`;
a nil mapping leaves the default. -/
theorem post_content_type_override_witness :
    (HeadersWF [("Content-Type", "text/plain"), ("x-id", "7")] ∧
      (Post demoWorld "http://api.test/item" (some (.num 3)) (some ⟨0, ""⟩)
          [("Content-Type", "text/plain"), ("x-id", "7")] 5).sentHeader "Content-Type"
        = some ["text/plain"]) ∧
    (HeadersWF [("content-type", "text/plain")] ∧
      (Post demoWorld "http://api.test/item" (some (.num 3)) (some ⟨0, ""⟩)
          [("content-type", "text/plain")] 5).sentHeader "Content-Type"
        = some ["text/plain"]) ∧
    (Post demoWorld "http://api.test/item" (some (.num 3)) (some ⟨0, ""⟩) []
        5).sentHeader "Content-Type" = some ["application/json"] :=
  ⟨⟨by decide,
    (post_content_type_override demoWorld "http://api.test/item" (some (.num 3))
      (some ⟨0, ""⟩) [("Content-Type", "text/plain"), ("x-id", "7")] 5 "3" rfl (by decide)
      (by decide)).1 "Content-Type" "text/plain" (by decide) (by decide) (by decide)⟩,
   ⟨by decide,
    (post_content_type_override demoWorld "http://api.test/item" (some (.num 3))
      (some ⟨0, ""⟩) [("content-type", "text/plain")] 5 "3" rfl (by decide)
      (by decide)).1 "content-type" "text/plain" (by decide) (by decide) (by decide)⟩,
   (post_content_type_override demoWorld "http://api.test/item" (some (.num 3))
      (some ⟨0, ""⟩) [] 5 "3" rfl (by decide) (by decide)).2.1 (by decide)⟩

/-- C10, as stated, fails.  The keys `content-type` and `Content-Type` are two
keys of one mapping; `Header.Set` stores both under `Content-Type`, so the
entry ranged over last wins, and the two orders send different headers.  The
name `content-type` itself is on neither request. -/
theorem header_order_counterexample :
    HeadersWF [("content-type", "a"), ("Content-Type", "b")] ∧
    List.Perm [("content-type", "a"), ("Content-Type", "b")]
      [("Content-Type", "b"), ("content-type", "a")] ∧
    (Get demoWorld "http://api.test/item" (some ⟨0, ""⟩)
        [("content-type", "a"), ("Content-Type", "b")] 5).sentHeader "Content-Type"
      = some ["b"] ∧
    (Get demoWorld "http://api.test/item" (some ⟨0, ""⟩)
        [("Content-Type", "b"), ("content-type", "a")] 5).sentHeader "Content-Type"
      = some ["a"] ∧
    (Get demoWorld "http://api.test/item" (some ⟨0, ""⟩)
        [("content-type", "a"), ("Content-Type", "b")] 5).sentHeader "content-type"
      = none ∧
    (Post demoWorld "http://api.test/item" none (some ⟨0, ""⟩)
        [("content-type", "a"), ("Content-Type", "b")] 5).sentHeader "Content-Type"
      = some ["b"] ∧
    (Post demoWorld "http://api.test/item" none (some ⟨0, ""⟩)
        [("Content-Type", "b"), ("content-type", "a")] 5).sentHeader "Content-Type"
      = some ["a"] := by
  refine ⟨by decide, List.Perm.swap _ _ _, by decide, by decide, by decide, by decide,
    by decide⟩

/-- C10, amended: for `Get` and for `Post`, when the keys of the mapping have
pairwise different canonical forms, the headers of the outgoing request are
the same for any two orders in which the entries are applied, and the canonical
form of each key carries the single value supplied for that key. -/
theorem header_order_irrelevant {δ τ ε : Type} (w : World δ τ ε) (url : String)
    (obj : Option τ) (hs₁ hs₂ : List (String × String)) (timeout : Duration)
    (hc : (hs₁.map (fun p => CanonicalMIMEHeaderKey p.1)).Nodup)
    (hperm : hs₁.Perm hs₂) (hp : w.parseURL url = none) :
    (∃ r₁ r₂, (Get w url obj hs₁ timeout).sent = some r₁ ∧
        (Get w url obj hs₂ timeout).sent = some r₂ ∧ r₁.header = r₂.header ∧
        ∀ p ∈ hs₁, r₁.header (CanonicalMIMEHeaderKey p.1) = some [p.2]) ∧
    (∀ (data : Option δ) (b : Bytes), jsonMarshal w data = .ok b →
      ∃ r₁ r₂, (Post w url data obj hs₁ timeout).sent = some r₁ ∧
        (Post w url data obj hs₂ timeout).sent = some r₂ ∧ r₁.header = r₂.header ∧
        ∀ p ∈ hs₁, r₁.header (CanonicalMIMEHeaderKey p.1) = some [p.2]) := by
  have huniq : ∀ p ∈ hs₁, ∀ q ∈ hs₁,
      CanonicalMIMEHeaderKey q.1 = CanonicalMIMEHeaderKey p.1 → q.2 = p.2 := by
    intro p hpm q hqm hqp
    rw [List.inj_on_of_nodup_map hc hqm hpm hqp]
  refine ⟨?_, ?_⟩
  · refine ⟨_, _, Get_sent w url obj hs₁ timeout hp, Get_sent w url obj hs₂ timeout hp,
      ?_, ?_⟩
    · exact foldl_Set_perm hs₁ hs₂ _ hc hperm
    · intro p hpm
      exact foldl_Set_of_mem hs₁ _ p.1 p.2 hpm (huniq p hpm)
  · intro data b hm
    refine ⟨_, _, Post_sent w url data obj hs₁ timeout b hm hp,
      Post_sent w url data obj hs₂ timeout b hm hp, ?_, ?_⟩
    · exact foldl_Set_perm hs₁ hs₂ _ hc hperm
    · intro p hpm
      exact foldl_Set_of_mem hs₁ _ p.1 p.2 hpm (huniq p hpm)

/-- C10, amended, at the demo server: `accept` and `X-Id` in both orders. -/
theorem header_order_irrelevant_witness :
    ([("accept", "a"), ("X-Id", "7")].map (fun p => CanonicalMIMEHeaderKey p.1)).Nodup ∧
    List.Perm [("accept", "a"), ("X-Id", "7")] [("X-Id", "7"), ("accept", "a")] ∧
    (∃ r₁ r₂, (Get demoWorld "http://api.test/item" (some ⟨0, ""⟩)
          [("accept", "a"), ("X-Id", "7")] 5).sent = some r₁ ∧
        (Get demoWorld "http://api.test/item" (some ⟨0, ""⟩)
          [("X-Id", "7"), ("accept", "a")] 5).sent = some r₂ ∧ r₁.header = r₂.header ∧
        ∀ p ∈ [("accept", "a"), ("X-Id", "7")],
          r₁.header (CanonicalMIMEHeaderKey p.1) = some [p.2]) ∧
    (∃ r₁ r₂, (Post demoWorld "http://api.test/item" none (some ⟨0, ""⟩)
          [("accept", "a"), ("X-Id", "7")] 5).sent = some r₁ ∧
        (Post demoWorld "http://api.test/item" none (some ⟨0, ""⟩)
          [("X-Id", "7"), ("accept", "a")] 5).sent = some r₂ ∧ r₁.header = r₂.header ∧
        ∀ p ∈ [("accept", "a"), ("X-Id", "7")],
          r₁.header (CanonicalMIMEHeaderKey p.1) = some [p.2]) :=
  ⟨by decide, List.Perm.swap _ _ _,
    (header_order_irrelevant demoWorld "http://api.test/item" (some ⟨0, ""⟩)
      [("accept", "a"), ("X-Id", "7")] [("X-Id", "7"), ("accept", "a")] 5 (by decide)
      (List.Perm.swap _ _ _) (by decide)).1,
    (header_order_irrelevant demoWorld "http://api.test/item" (some ⟨0, ""⟩)
      [("accept", "a"), ("X-Id", "7")] [("X-Id", "7"), ("accept", "a")] 5 (by decide)
      (List.Perm.swap _ _ _) (by decide)).2 none "null" rfl⟩

end Gorequest
